import Mathlib

/-!
# coraza-caddy: the interception middleware (`coraza.go`)

A shallow embedding of `Middleware.ServeHTTP`, `interrupt` and `logger`.

The middleware talks to three collaborators whose code is not part of
`coraza.go`: the inspection engine (`coraza.Waf`, `coraza.Transaction`), the
downstream handler (`caddyhttp.Handler`) and the real response sink
(`http.ResponseWriter`).  Their behaviour is a parameter (`Env`); every call
`ServeHTTP` makes on them is recorded, in program order, in a trace of `Step`s.
-/

namespace Coraza

/-! ## Data model -/

abbrev Byte := Fin 256

abbrev Bytes := List Byte

/-- Go `error` interface values: the nil error, an ordinary error (identified
by its message), and `caddyhttp.HandlerError` with the fields `interrupt`
fills in. -/
inductive GoError where
  | nil
  | errorString (msg : String)
  | HandlerError (StatusCode : Int) (ID : String) (Err : GoError)
  deriving DecidableEq, Repr

/-- Engine type `types.Interruption`; this package reads `Status` only. -/
structure Interruption where
  RuleID : Int
  Action : String
  Status : Int
  deriving DecidableEq, Repr

/-- An `io.Reader` over stored bytes: `pos` bytes have been consumed. -/
structure Reader where
  data : Bytes
  pos : Nat
  deriving DecidableEq, Repr

/-- What reading the stream to its end yields (`io.ReadAll`). -/
def Reader.readAll (re : Reader) : Bytes := re.data.drop re.pos

/-- Engine-managed body storage (`tx.RequestBodyBuffer`): the bytes held and
the error, if any, with which opening it for reading fails. -/
structure BodyBuffer where
  data : Bytes
  openErr : GoError
  deriving DecidableEq, Repr

/-- Method `BodyBuffer.Reader()`: a fresh reader positioned at the start, or
the nil reader and the error. -/
def BodyBuffer.Reader (b : BodyBuffer) : Option Reader × GoError :=
  if b.openErr = GoError.nil then (some ⟨b.data, 0⟩, GoError.nil) else (none, b.openErr)

/-- The fields of `coraza.Transaction` this package touches. -/
structure Transaction where
  ID : String
  Interruption : Option Interruption
  RequestBodyBuffer : BodyBuffer
  deriving DecidableEq, Repr

/-- An `io.ReadCloser` held in `Request.Body`. -/
inductive ReadCloser where
  /-- the body as it arrived on the connection -/
  | conn (re : Reader)
  /-- the value of `io.NopCloser(re)` -/
  | NopCloser (re : Option Reader)
  deriving DecidableEq, Repr

/-- What a consumer of the body reads from it. -/
def ReadCloser.readAll : ReadCloser → Bytes
  | .conn re => re.readAll
  | .NopCloser (some re) => re.readAll
  | .NopCloser none => []

/-- The `http.Request` fields relevant to the pipeline. -/
structure Request where
  Method : String
  URL : String
  Header : List (String × String)
  Body : ReadCloser
  deriving DecidableEq, Repr

/-- Modelled from the spec: the Response Capture Buffer (`StreamRecorder`,
built by `NewStreamRecorder`, declared outside `coraza.go`).  Spec §3/§4.2: a
pending status code (0 when never written), the accumulated body bytes, a
boolean streamed flag, and a buffer that may fail to open for re-reading. -/
structure StreamRecorder where
  statusCode : Int
  body : Bytes
  streamed : Bool
  openErr : GoError
  deriving DecidableEq, Repr

/-- Modelled from the spec: `NewStreamRecorder(w, tx)`, the recorder handed to
the downstream handler; nothing recorded, buffering mode. -/
def NewStreamRecorder (_tx : Transaction) : StreamRecorder :=
  { statusCode := 0, body := [], streamed := false, openErr := GoError.nil }

/-- Modelled from the spec: `Buffered()`, true iff content is held and not yet
released to the real sink (false in streamed mode). -/
def StreamRecorder.Buffered (rec : StreamRecorder) : Bool := !rec.streamed

/-- Modelled from the spec: `Status()`, the recorded status, 0 if never
written. -/
def StreamRecorder.Status (rec : StreamRecorder) : Int := rec.statusCode

/-- Modelled from the spec: `Reader()`, a fresh read over the accumulated body,
or an I/O error if the underlying buffer cannot be opened. -/
def StreamRecorder.Reader (rec : StreamRecorder) : Option Reader × GoError :=
  if rec.openErr = GoError.nil then (some ⟨rec.body, 0⟩, GoError.nil) else (none, rec.openErr)

/-! ## Collaborators -/

/-- Outcome of `tx.ProcessRequest(r)`: the returned pair, the transaction as
phases 1/2 leave it, and the body the engine leaves in `r.Body` (the engine
reads the request and reassigns only that field). -/
structure ProcessRequestResult where
  it : Option Interruption
  err : GoError
  tx : Transaction
  Body : ReadCloser

/-- Outcome of `next.ServeHTTP(rec, r)`: the returned error, and the
transaction and recorder as the handler leaves them (the recorder holds the
transaction, whose hooks may set `Interruption` while the handler writes). -/
structure NextResult where
  err : GoError
  tx : Transaction
  recorder : StreamRecorder

/-- The collaborators of one `ServeHTTP` call. -/
structure Env where
  /-- m.waf.NewTransaction() -/
  NewTransaction : Transaction
  /-- tx.ProcessRequest(r) -/
  ProcessRequest : Transaction → Request → ProcessRequestResult
  /-- next.ServeHTTP(rec, r) -/
  next : StreamRecorder → Request → Transaction → NextResult
  /-- the error io.Copy(w, reader) ends with on the real sink -/
  ioCopy : Option Reader → GoError

/-- The calls `ServeHTTP` makes, in program order. -/
inductive Step where
  | NewTransaction
  | ReplacerSet (key value : String)
  | ProcessRequest
  | RequestBodyReader
  | SetBody
  | NewStreamRecorder
  | Next (r : Request)
  | ReadInterruption
  | Interrupt
  | RecBuffered
  | RecStatus
  | WriteHeader (status : Int)
  | RecReader
  | Copy (src : Option Reader)
  | ProcessLogging
  deriving DecidableEq, Repr

/-- One run: the error returned and the calls made. -/
structure Exec where
  result : GoError
  trace : List Step
  deriving DecidableEq, Repr

/-! ## `interrupt` -/

/-- Function `interrupt(err, tx)` of `coraza.go`. -/
def interrupt (err : GoError) (tx : Transaction) : GoError :=
  match tx.Interruption with
  | none => GoError.HandlerError 500 tx.ID err
  | some it =>
    let status := it.Status
    let status := if status ≤ 0 then 403 else status
    GoError.HandlerError status tx.ID err

/-! ## `Middleware.ServeHTTP` -/

/-- The statements of `Middleware.ServeHTTP` from `tx := m.waf.NewTransaction()`
to its `return`s, without the deferred call.  The host stores a Replacer in
every request context, so the type assertion on it succeeds. -/
def ServeHTTP.body (env : Env) (r : Request) : Exec × Transaction :=
  let tx := env.NewTransaction
  let t := [Step.NewTransaction, Step.ReplacerSet "http.transaction_id" tx.ID]
  let pr := env.ProcessRequest tx r
  let tx := pr.tx
  let r := { r with Body := pr.Body }
  let t := t ++ [Step.ProcessRequest]
  if pr.err ≠ GoError.nil then
    (⟨pr.err, t⟩, tx)
  else if pr.it.isSome then
    (⟨interrupt GoError.nil tx, t ++ [Step.Interrupt]⟩, tx)
  else
    let opened := tx.RequestBodyBuffer.Reader
    let re := opened.1
    let err := opened.2
    let t := t ++ [Step.RequestBodyReader]
    if err ≠ GoError.nil then
      (⟨err, t⟩, tx)
    else
      let r := { r with Body := ReadCloser.NopCloser re }
      let rec0 := NewStreamRecorder tx
      let nr := env.next rec0 r tx
      let tx := nr.tx
      let recorder := nr.recorder
      let t := t ++ [Step.SetBody, Step.NewStreamRecorder, Step.Next r]
      if nr.err ≠ GoError.nil then
        (⟨nr.err, t⟩, tx)
      else
        let t := t ++ [Step.ReadInterruption]
        if tx.Interruption.isSome then
          (⟨interrupt GoError.nil tx, t ++ [Step.Interrupt]⟩, tx)
        else
          let t := t ++ [Step.RecBuffered]
          if !recorder.Buffered then
            (⟨GoError.nil, t⟩, tx)
          else
            let status := recorder.Status
            let t := t ++ [Step.RecStatus]
            let t := if status > 0 then t ++ [Step.WriteHeader status] else t
            let opened := recorder.Reader
            let reader := opened.1
            let err := opened.2
            let t := t ++ [Step.RecReader]
            if err ≠ GoError.nil then
              (⟨err, t⟩, tx)
            else
              let err := env.ioCopy reader
              (⟨err, t ++ [Step.Copy reader]⟩, tx)

/-- Method `Middleware.ServeHTTP`: the body, then the deferred
`tx.ProcessLogging()`, which runs on every return path after the returned
value has been computed. -/
def ServeHTTP (env : Env) (r : Request) : Exec :=
  let done := ServeHTTP.body env r
  ⟨done.1.result, done.1.trace ++ [Step.ProcessLogging]⟩

/-! ## `logger` -/

/-- Engine type `types.RuleSeverity`, an integer type. -/
abbrev RuleSeverity := Int

/-- Modelled from the spec: the constants `types.RuleSeverity...`, declared in
the engine; §4.5 lists the eight severity levels in order (emergency, alert,
critical, error, warning, notice, info, debug). -/
def RuleSeverityEmergency : RuleSeverity := 0

def RuleSeverityAlert : RuleSeverity := 1

def RuleSeverityCritical : RuleSeverity := 2

def RuleSeverityError : RuleSeverity := 3

def RuleSeverityWarning : RuleSeverity := 4

def RuleSeverityNotice : RuleSeverity := 5

def RuleSeverityInfo : RuleSeverity := 6

def RuleSeverityDebug : RuleSeverity := 7

/-- Engine type `coraza.Rule`; the callback reads `Severity`. -/
structure Rule where
  Severity : RuleSeverity

/-- Engine type `coraza.MatchedRule`: the rule, and its method
`ErrorLog(code)`, which formats the match into one line. -/
structure MatchedRule where
  Rule : Rule
  ErrorLog : Int → String

/-- Levels of the host logger (`zap`). -/
inductive LogLevel where
  | Debug
  | Info
  | Warn
  | Error
  deriving DecidableEq, Repr

/-- One record handed to the host logger. -/
structure LogRecord where
  level : LogLevel
  msg : String
  deriving DecidableEq, Repr

/-- The callback returned by `logger(logger)`, as the records it hands to the
host logger for one matched rule.  The `switch` has no `default`. -/
def logger (mr : MatchedRule) : List LogRecord :=
  let data := mr.ErrorLog 403
  if mr.Rule.Severity = RuleSeverityEmergency then [⟨LogLevel.Error, data⟩]
  else if mr.Rule.Severity = RuleSeverityAlert then [⟨LogLevel.Error, data⟩]
  else if mr.Rule.Severity = RuleSeverityCritical then [⟨LogLevel.Error, data⟩]
  else if mr.Rule.Severity = RuleSeverityError then [⟨LogLevel.Error, data⟩]
  else if mr.Rule.Severity = RuleSeverityWarning then [⟨LogLevel.Warn, data⟩]
  else if mr.Rule.Severity = RuleSeverityNotice then [⟨LogLevel.Info, data⟩]
  else if mr.Rule.Severity = RuleSeverityInfo then [⟨LogLevel.Info, data⟩]
  else if mr.Rule.Severity = RuleSeverityDebug then [⟨LogLevel.Debug, data⟩]
  else []

/-- The mapping of §4.5 as a table: emergency, alert, critical and error to
error; warning to warn; notice and info to info; debug to debug. -/
def severityTable : List (RuleSeverity × LogLevel) :=
  [ (RuleSeverityEmergency, LogLevel.Error), (RuleSeverityAlert, LogLevel.Error),
    (RuleSeverityCritical, LogLevel.Error), (RuleSeverityError, LogLevel.Error),
    (RuleSeverityWarning, LogLevel.Warn), (RuleSeverityNotice, LogLevel.Info),
    (RuleSeverityInfo, LogLevel.Info), (RuleSeverityDebug, LogLevel.Debug) ]

/-- The eight severities. -/
def severities : List RuleSeverity :=
  [ RuleSeverityEmergency, RuleSeverityAlert, RuleSeverityCritical, RuleSeverityError,
    RuleSeverityWarning, RuleSeverityNotice, RuleSeverityInfo, RuleSeverityDebug ]

/-! ## Reading a run -/

/-- The handler calls of a trace, as the requests handed over. -/
def nextRequests : List Step → List Request
  | [] => []
  | Step.Next q :: t => q :: nextRequests t
  | _ :: t => nextRequests t

/-- Calls on the real sink: `w.WriteHeader` and `io.Copy(w, _)`. -/
def Step.isSinkWrite : Step → Bool
  | Step.WriteHeader _ => true
  | Step.Copy _ => true
  | _ => false

/-- The calls a trace makes on the real sink, in order. -/
def sinkOps (t : List Step) : List Step := t.filter Step.isSinkWrite

/-- Body writes on the real sink: `io.Copy(w, _)`. -/
def Step.isCopy : Step → Bool
  | Step.Copy _ => true
  | _ => false

/-- Steps that come after the handler's return when no error stops the run:
the Interruption checkpoint, the recorder's `Buffered`, `Status` and `Reader`,
and the writes on the real sink. -/
def Step.isResolution : Step → Bool
  | Step.ReadInterruption => true
  | Step.Interrupt => true
  | Step.RecBuffered => true
  | Step.RecStatus => true
  | Step.RecReader => true
  | Step.WriteHeader _ => true
  | Step.Copy _ => true
  | _ => false

/-- The outcome of phases 1/2 on the fresh transaction. -/
def Env.inspected (env : Env) (r : Request) : ProcessRequestResult :=
  env.ProcessRequest env.NewTransaction r

/-- The received request with its body replaced by a fresh reader over the
engine's buffered copy. -/
def Env.forwarded (env : Env) (r : Request) : Request :=
  { r with Body := ReadCloser.NopCloser (some ⟨(env.inspected r).tx.RequestBodyBuffer.data, 0⟩) }

/-- The downstream handler's outcome on that request and a new recorder. -/
def Env.handled (env : Env) (r : Request) : NextResult :=
  env.next (NewStreamRecorder (env.inspected r).tx) (env.forwarded r) (env.inspected r).tx

/-! ## Sample runs -/

def sampleBody : Bytes := [117, 61, 49]

def sampleRequest : Request :=
  { Method := "POST", URL := "/login", Header := [("Host", "example.org")],
    Body := ReadCloser.conn ⟨sampleBody, 0⟩ }

def sampleTx : Transaction :=
  { ID := "tx-1", Interruption := none, RequestBodyBuffer := ⟨[], GoError.nil⟩ }

/-- The transaction once the engine has buffered the request body. -/
def sampleTxRead : Transaction :=
  { sampleTx with RequestBodyBuffer := ⟨sampleBody, GoError.nil⟩ }

/-- An Interruption that carries no status of its own. -/
def sampleDeny : Interruption := { RuleID := 100, Action := "deny", Status := 0 }

/-- An Interruption with status 406. -/
def sampleDeny406 : Interruption := { RuleID := 200, Action := "deny", Status := 406 }

/-- Phases 1/2 pass; the engine leaves a reader over its copy in `r.Body`. -/
def passRequest (_tx : Transaction) (_r : Request) : ProcessRequestResult :=
  { it := none, err := GoError.nil, tx := sampleTxRead,
    Body := ReadCloser.NopCloser (some ⟨sampleBody, 0⟩) }

/-- A handler that writes status 200 and the body "hello" into the recorder. -/
def helloHandler (rec0 : StreamRecorder) (_r : Request) (tx : Transaction) : NextResult :=
  { err := GoError.nil, tx := tx,
    recorder := { rec0 with statusCode := 200, body := [104, 101, 108, 108, 111] } }

/-- Scenario A: nothing matches, the response is delivered. -/
def envAllow : Env :=
  { NewTransaction := sampleTx, ProcessRequest := passRequest, next := helloHandler,
    ioCopy := fun _ => GoError.nil }

/-- Scenario B: a rule blocks the request in phase 2. -/
def envBlock : Env :=
  { envAllow with
    ProcessRequest := fun _ _ =>
      { it := some sampleDeny, err := GoError.nil,
        tx := { sampleTxRead with Interruption := some sampleDeny },
        Body := ReadCloser.NopCloser (some ⟨sampleBody, 0⟩) } }

/-- Scenario C: the response body trips a rule with status 406 while the
handler writes it. -/
def envBlockResponse : Env :=
  { envAllow with
    next := fun rec0 _ tx =>
      { err := GoError.nil, tx := { tx with Interruption := some sampleDeny406 },
        recorder := { rec0 with statusCode := 200, body := [115, 101, 99, 114, 101, 116] } } }

/-- Scenario E: the engine fails while inspecting the request. -/
def envEngineFails : Env :=
  { envAllow with
    ProcessRequest := fun tx r =>
      { it := none, err := GoError.errorString "engine failure", tx := tx, Body := r.Body } }

/-- The downstream handler fails after an Interruption was set. -/
def envHandlerFails : Env :=
  { envAllow with
    next := fun rec0 _ tx =>
      { err := GoError.errorString "upstream down",
        tx := { tx with Interruption := some sampleDeny406 },
        recorder := { rec0 with statusCode := 502, body := [111, 111, 112, 115] } } }

/-- The handler records status 200 and a body, and the capture buffer then
cannot be opened for re-reading. -/
def envBufferFails : Env :=
  { envAllow with
    next := fun rec0 _ tx =>
      { err := GoError.nil, tx := tx,
        recorder := { rec0 with statusCode := 200, body := [104, 105],
                                openErr := GoError.errorString "cannot open buffer" } } }

/-- A match of a rule of severity warning. -/
def sampleMatch : MatchedRule :=
  { Rule := ⟨RuleSeverityWarning⟩,
    ErrorLog := fun code =>
      if code = 403 then "status 403: rule 100 matched" else "rule 100 matched" }

/-! ## Lemmas on the body of `ServeHTTP` -/

/-- The calls up to and including request inspection. -/
def requestSteps (env : Env) : List Step :=
  [Step.NewTransaction, Step.ReplacerSet "http.transaction_id" env.NewTransaction.ID,
    Step.ProcessRequest]

/-- The calls up to and including the handler's. -/
def handoverSteps (env : Env) (r : Request) : List Step :=
  requestSteps env ++
    [Step.RequestBodyReader, Step.SetBody, Step.NewStreamRecorder, Step.Next (env.forwarded r)]

/-- The calls of final resolution up to the recorder's `Reader()`. -/
def releaseSteps (rec : StreamRecorder) : List Step :=
  [Step.ReadInterruption, Step.RecBuffered, Step.RecStatus] ++
    (if rec.Status > 0 then [Step.WriteHeader rec.Status] else []) ++ [Step.RecReader]

theorem body_of_engine_error (env : Env) (r : Request)
    (herr : (env.inspected r).err ≠ GoError.nil) :
    (ServeHTTP.body env r).1 = ⟨(env.inspected r).err, requestSteps env⟩ := by
  simp only [Env.inspected] at herr
  simp [ServeHTTP.body, herr, Env.inspected, requestSteps]

theorem body_of_request_interrupted (env : Env) (r : Request)
    (herr : (env.inspected r).err = GoError.nil) (hit : (env.inspected r).it.isSome = true) :
    (ServeHTTP.body env r).1 =
      ⟨interrupt GoError.nil (env.inspected r).tx, requestSteps env ++ [Step.Interrupt]⟩ := by
  simp only [Env.inspected] at herr hit
  simp [ServeHTTP.body, herr, hit, Env.inspected, requestSteps]

theorem body_of_request_buffer_error (env : Env) (r : Request)
    (herr : (env.inspected r).err = GoError.nil) (hit : (env.inspected r).it = none)
    (hopen : (env.inspected r).tx.RequestBodyBuffer.openErr ≠ GoError.nil) :
    (ServeHTTP.body env r).1 =
      ⟨(env.inspected r).tx.RequestBodyBuffer.openErr,
        requestSteps env ++ [Step.RequestBodyReader]⟩ := by
  simp only [Env.inspected] at herr hit hopen
  simp [ServeHTTP.body, herr, hit, hopen, Env.inspected, requestSteps, BodyBuffer.Reader]

theorem body_of_handler_error (env : Env) (r : Request)
    (herr : (env.inspected r).err = GoError.nil) (hit : (env.inspected r).it = none)
    (hopen : (env.inspected r).tx.RequestBodyBuffer.openErr = GoError.nil)
    (hnext : (env.handled r).err ≠ GoError.nil) :
    (ServeHTTP.body env r).1 = ⟨(env.handled r).err, handoverSteps env r⟩ := by
  simp only [Env.handled, Env.forwarded, Env.inspected] at herr hit hopen hnext
  simp [ServeHTTP.body, herr, hit, hopen, hnext, Env.handled, Env.forwarded, Env.inspected,
    requestSteps, handoverSteps, BodyBuffer.Reader]

theorem body_of_response_interrupted (env : Env) (r : Request)
    (herr : (env.inspected r).err = GoError.nil) (hit : (env.inspected r).it = none)
    (hopen : (env.inspected r).tx.RequestBodyBuffer.openErr = GoError.nil)
    (hnext : (env.handled r).err = GoError.nil)
    (hint : (env.handled r).tx.Interruption.isSome = true) :
    (ServeHTTP.body env r).1 =
      ⟨interrupt GoError.nil (env.handled r).tx,
        handoverSteps env r ++ [Step.ReadInterruption, Step.Interrupt]⟩ := by
  simp only [Env.handled, Env.forwarded, Env.inspected] at herr hit hopen hnext hint
  simp [ServeHTTP.body, herr, hit, hopen, hnext, hint, Env.handled, Env.forwarded,
    Env.inspected, requestSteps, handoverSteps, BodyBuffer.Reader]

theorem body_of_streamed (env : Env) (r : Request)
    (herr : (env.inspected r).err = GoError.nil) (hit : (env.inspected r).it = none)
    (hopen : (env.inspected r).tx.RequestBodyBuffer.openErr = GoError.nil)
    (hnext : (env.handled r).err = GoError.nil)
    (hint : (env.handled r).tx.Interruption = none)
    (hbuf : (env.handled r).recorder.Buffered = false) :
    (ServeHTTP.body env r).1 =
      ⟨GoError.nil, handoverSteps env r ++ [Step.ReadInterruption, Step.RecBuffered]⟩ := by
  simp only [Env.handled, Env.forwarded, Env.inspected] at herr hit hopen hnext hint hbuf
  simp [ServeHTTP.body, herr, hit, hopen, hnext, hint, hbuf, Env.handled, Env.forwarded,
    Env.inspected, requestSteps, handoverSteps, BodyBuffer.Reader]

theorem body_of_capture_error (env : Env) (r : Request)
    (herr : (env.inspected r).err = GoError.nil) (hit : (env.inspected r).it = none)
    (hopen : (env.inspected r).tx.RequestBodyBuffer.openErr = GoError.nil)
    (hnext : (env.handled r).err = GoError.nil)
    (hint : (env.handled r).tx.Interruption = none)
    (hbuf : (env.handled r).recorder.Buffered = true)
    (hrec : (env.handled r).recorder.Reader.2 ≠ GoError.nil) :
    (ServeHTTP.body env r).1 =
      ⟨(env.handled r).recorder.Reader.2,
        handoverSteps env r ++ releaseSteps (env.handled r).recorder⟩ := by
  simp only [Env.handled, Env.forwarded, Env.inspected] at herr hit hopen hnext hint hbuf hrec
  by_cases hs : (env.handled r).recorder.Status > 0 <;>
    simp only [Env.handled, Env.forwarded, Env.inspected] at hs <;>
    simp [ServeHTTP.body, herr, hit, hopen, hnext, hint, hbuf, hrec, hs, Env.handled,
      Env.forwarded, Env.inspected, requestSteps, handoverSteps, releaseSteps,
      BodyBuffer.Reader]

theorem body_of_release (env : Env) (r : Request)
    (herr : (env.inspected r).err = GoError.nil) (hit : (env.inspected r).it = none)
    (hopen : (env.inspected r).tx.RequestBodyBuffer.openErr = GoError.nil)
    (hnext : (env.handled r).err = GoError.nil)
    (hint : (env.handled r).tx.Interruption = none)
    (hbuf : (env.handled r).recorder.Buffered = true)
    (hrec : (env.handled r).recorder.Reader.2 = GoError.nil) :
    (ServeHTTP.body env r).1 =
      ⟨env.ioCopy (env.handled r).recorder.Reader.1,
        handoverSteps env r ++ releaseSteps (env.handled r).recorder ++
          [Step.Copy (env.handled r).recorder.Reader.1]⟩ := by
  simp only [Env.handled, Env.forwarded, Env.inspected] at herr hit hopen hnext hint hbuf hrec
  by_cases hs : (env.handled r).recorder.Status > 0 <;>
    simp only [Env.handled, Env.forwarded, Env.inspected] at hs <;>
    simp [ServeHTTP.body, herr, hit, hopen, hnext, hint, hbuf, hrec, hs, Env.handled,
      Env.forwarded, Env.inspected, requestSteps, handoverSteps, releaseSteps,
      BodyBuffer.Reader]

theorem body_never_logs (env : Env) (r : Request) :
    Step.ProcessLogging ∉ (ServeHTTP.body env r).1.trace := by
  unfold ServeHTTP.body
  simp only []
  split_ifs <;> simp

theorem body_calls_next_once (env : Env) (r : Request)
    (herr : (env.inspected r).err = GoError.nil) (hit : (env.inspected r).it = none)
    (hopen : (env.inspected r).tx.RequestBodyBuffer.openErr = GoError.nil) :
    nextRequests (ServeHTTP.body env r).1.trace = [env.forwarded r] := by
  simp only [Env.inspected] at herr hit hopen
  unfold ServeHTTP.body
  simp only [herr, hit, hopen, BodyBuffer.Reader, Env.forwarded, Env.inspected]
  split_ifs <;> simp_all [nextRequests]

theorem nextRequests_append_logging (t : List Step) :
    nextRequests (t ++ [Step.ProcessLogging]) = nextRequests t := by
  induction t with
  | nil => rfl
  | cons s t ih => cases s <;> simp [nextRequests, ih]

/-! ## The claims -/

/-- C7: for every transaction `tx` and every error value `err`, `interrupt(err, tx)`
is a handler error with ID `tx.ID` and Err `err`; its status code is 500 when
`tx.Interruption` is nil, the Interruption's status when that is positive, and
403 when the Interruption is set with a status `≤ 0`. -/
theorem interrupt_handler_error (err : GoError) (tx : Transaction) :
    (tx.Interruption = none → interrupt err tx = GoError.HandlerError 500 tx.ID err) ∧
    (∀ i, tx.Interruption = some i → 0 < i.Status →
      interrupt err tx = GoError.HandlerError i.Status tx.ID err) ∧
    (∀ i, tx.Interruption = some i → i.Status ≤ 0 →
      interrupt err tx = GoError.HandlerError 403 tx.ID err) := by
  refine ⟨?_, ?_, ?_⟩
  · intro h
    simp [interrupt, h]
  · intro i h hpos
    have : ¬ i.Status ≤ 0 := by omega
    simp [interrupt, h, this]
  · intro i h hle
    simp [interrupt, h, hle]

theorem interrupt_handler_error_witness :
    interrupt (GoError.errorString "engine failure") sampleTx =
        GoError.HandlerError 500 "tx-1" (GoError.errorString "engine failure") ∧
      interrupt GoError.nil { sampleTx with Interruption := some sampleDeny406 } =
        GoError.HandlerError 406 "tx-1" GoError.nil ∧
      interrupt GoError.nil { sampleTx with Interruption := some sampleDeny } =
        GoError.HandlerError 403 "tx-1" GoError.nil :=
  ⟨(interrupt_handler_error (GoError.errorString "engine failure") sampleTx).1 rfl,
    (interrupt_handler_error GoError.nil
      { sampleTx with Interruption := some sampleDeny406 }).2.1 sampleDeny406 rfl (by decide),
    (interrupt_handler_error GoError.nil
      { sampleTx with Interruption := some sampleDeny }).2.2 sampleDeny rfl (by decide)⟩

/-- C10: for every matched rule whose severity is one of the eight (emergency,
alert, critical, error, warning, notice, info, debug), the callback hands the
host logger exactly one record: the rule's `ErrorLog(403)` line at the level the
table gives (error for the first four, warn for warning, info for notice and
info, debug for debug).  The callback is a total function: it cannot fail. -/
theorem logger_one_record_per_severity (mr : MatchedRule)
    (h : mr.Rule.Severity ∈ severities) :
    ∃ lvl, severityTable.lookup mr.Rule.Severity = some lvl ∧
      logger mr = [⟨lvl, mr.ErrorLog 403⟩] := by
  simp only [severities, List.mem_cons, List.mem_singleton, List.not_mem_nil, or_false] at h
  rcases h with h | h | h | h | h | h | h | h <;>
    simp [logger, h, severityTable, List.lookup, RuleSeverityEmergency, RuleSeverityAlert,
      RuleSeverityCritical, RuleSeverityError, RuleSeverityWarning, RuleSeverityNotice,
      RuleSeverityInfo, RuleSeverityDebug]

theorem logger_one_record_per_severity_witness :
    RuleSeverityWarning ∈ severities ∧
      ∃ lvl, severityTable.lookup RuleSeverityWarning = some lvl ∧
        logger sampleMatch = [⟨lvl, "status 403: rule 100 matched"⟩] :=
  ⟨by decide, logger_one_record_per_severity sampleMatch (by decide)⟩

/-- C1: when `ProcessRequest` (phases 1/2) returns no error and yields an
Interruption `i`, the one it leaves in the transaction, `ServeHTTP` never calls
the next handler and returns a handler error, for this transaction, whose status
code is `i.Status`, or 403 when `i.Status ≤ 0`. -/
theorem ServeHTTP_request_interrupted (env : Env) (r : Request) (i : Interruption)
    (herr : (env.inspected r).err = GoError.nil)
    (hit : (env.inspected r).it = some i)
    (htx : (env.inspected r).tx.Interruption = some i) :
    nextRequests (ServeHTTP env r).trace = [] ∧
      (ServeHTTP env r).result =
        GoError.HandlerError (if i.Status ≤ 0 then 403 else i.Status)
          (env.inspected r).tx.ID GoError.nil := by
  have hb := body_of_request_interrupted env r herr (by simp [hit])
  constructor
  · simp [ServeHTTP, hb, requestSteps, nextRequests]
  · simp [ServeHTTP, hb, interrupt, htx]

theorem ServeHTTP_request_interrupted_witness :
    (envBlock.inspected sampleRequest).err = GoError.nil ∧
      (envBlock.inspected sampleRequest).it = some sampleDeny ∧
      (envBlock.inspected sampleRequest).tx.Interruption = some sampleDeny ∧
      nextRequests (ServeHTTP envBlock sampleRequest).trace = [] ∧
      (ServeHTTP envBlock sampleRequest).result =
        GoError.HandlerError (if sampleDeny.Status ≤ 0 then 403 else sampleDeny.Status)
          (envBlock.inspected sampleRequest).tx.ID GoError.nil :=
  ⟨rfl, rfl, rfl, ServeHTTP_request_interrupted envBlock sampleRequest sampleDeny rfl rfl rfl⟩

/-- C2: when the next handler returns no error and the transaction's
Interruption is then set to `i` (interruption during phase 3/4), `ServeHTTP`
itself makes no call on the real sink, neither `WriteHeader` nor a copy of the
recorder's body, and returns the handler error whose status code is `i.Status`,
or 403 when `i.Status ≤ 0`. -/
theorem ServeHTTP_response_interrupted (env : Env) (r : Request) (i : Interruption)
    (herr : (env.inspected r).err = GoError.nil) (hit : (env.inspected r).it = none)
    (hopen : (env.inspected r).tx.RequestBodyBuffer.openErr = GoError.nil)
    (hnext : (env.handled r).err = GoError.nil)
    (hint : (env.handled r).tx.Interruption = some i) :
    sinkOps (ServeHTTP env r).trace = [] ∧
      (ServeHTTP env r).result =
        GoError.HandlerError (if i.Status ≤ 0 then 403 else i.Status)
          (env.handled r).tx.ID GoError.nil := by
  have hb := body_of_response_interrupted env r herr hit hopen hnext (by simp [hint])
  constructor
  · simp [ServeHTTP, hb, handoverSteps, requestSteps, sinkOps, Step.isSinkWrite]
  · simp [ServeHTTP, hb, interrupt, hint]

theorem ServeHTTP_response_interrupted_witness :
    (envBlockResponse.handled sampleRequest).err = GoError.nil ∧
      (envBlockResponse.handled sampleRequest).tx.Interruption = some sampleDeny406 ∧
      sinkOps (ServeHTTP envBlockResponse sampleRequest).trace = [] ∧
      (ServeHTTP envBlockResponse sampleRequest).result =
        GoError.HandlerError (if sampleDeny406.Status ≤ 0 then 403 else sampleDeny406.Status)
          (envBlockResponse.handled sampleRequest).tx.ID GoError.nil :=
  ⟨rfl, rfl,
    ServeHTTP_response_interrupted envBlockResponse sampleRequest sampleDeny406
      rfl rfl rfl rfl rfl⟩

/-- C3: when `ProcessRequest` continues, the next handler returns no error, no
Interruption is set, the recorder reports `Buffered()` and its reader opens,
the calls `ServeHTTP` makes on the real sink are: one `WriteHeader(status)`
exactly when the recorded status is `> 0` (none otherwise), then one copy whose
source is a fresh reader over the recorder's accumulated body, so that it
yields those bytes, identical and in order; `ServeHTTP` returns the error of
that copy. -/
theorem ServeHTTP_releases_buffer (env : Env) (r : Request)
    (herr : (env.inspected r).err = GoError.nil) (hit : (env.inspected r).it = none)
    (hopen : (env.inspected r).tx.RequestBodyBuffer.openErr = GoError.nil)
    (hnext : (env.handled r).err = GoError.nil)
    (hint : (env.handled r).tx.Interruption = none)
    (hbuf : (env.handled r).recorder.Buffered = true)
    (hrec : (env.handled r).recorder.Reader.2 = GoError.nil) :
    sinkOps (ServeHTTP env r).trace =
        (if (env.handled r).recorder.Status > 0
          then [Step.WriteHeader (env.handled r).recorder.Status] else []) ++
          [Step.Copy (some ⟨(env.handled r).recorder.body, 0⟩)] ∧
      Reader.readAll ⟨(env.handled r).recorder.body, 0⟩ = (env.handled r).recorder.body ∧
      (ServeHTTP env r).result = env.ioCopy (some ⟨(env.handled r).recorder.body, 0⟩) := by
  have hb := body_of_release env r herr hit hopen hnext hint hbuf hrec
  have hok : (env.handled r).recorder.openErr = GoError.nil := by
    by_contra hne
    simp [StreamRecorder.Reader, hne] at hrec
  have hreader : (env.handled r).recorder.Reader.1 = some ⟨(env.handled r).recorder.body, 0⟩ := by
    simp [StreamRecorder.Reader, hok]
  refine ⟨?_, ?_, ?_⟩
  · by_cases hs : (env.handled r).recorder.Status > 0 <;>
      simp [ServeHTTP, hb, hreader, hs, handoverSteps, requestSteps, releaseSteps, sinkOps,
        Step.isSinkWrite, List.filter]
  · simp [Reader.readAll]
  · simp [ServeHTTP, hb, hreader]

theorem ServeHTTP_releases_buffer_witness :
    (envAllow.handled sampleRequest).recorder.Buffered = true ∧
      (envAllow.handled sampleRequest).recorder.Reader.2 = GoError.nil ∧
      (sinkOps (ServeHTTP envAllow sampleRequest).trace =
          (if (envAllow.handled sampleRequest).recorder.Status > 0
            then [Step.WriteHeader (envAllow.handled sampleRequest).recorder.Status] else []) ++
            [Step.Copy (some ⟨(envAllow.handled sampleRequest).recorder.body, 0⟩)] ∧
        Reader.readAll ⟨(envAllow.handled sampleRequest).recorder.body, 0⟩ =
          (envAllow.handled sampleRequest).recorder.body ∧
        (ServeHTTP envAllow sampleRequest).result =
          envAllow.ioCopy (some ⟨(envAllow.handled sampleRequest).recorder.body, 0⟩)) :=
  ⟨rfl, rfl, ServeHTTP_releases_buffer envAllow sampleRequest rfl rfl rfl rfl rfl rfl rfl⟩

/-- C4: when `ProcessRequest` yields continue (no error, no interruption) and
the engine's request-body buffer opens for reading, `ServeHTTP` calls the next
handler once, with the request it received in which `Body` is
`io.NopCloser` of a fresh reader over `tx.RequestBodyBuffer`: read from the
start it yields exactly the buffered bytes, and every other field is the
received one. -/
theorem ServeHTTP_forwards_buffered_body (env : Env) (r : Request)
    (herr : (env.inspected r).err = GoError.nil) (hit : (env.inspected r).it = none)
    (hopen : (env.inspected r).tx.RequestBodyBuffer.openErr = GoError.nil) :
    nextRequests (ServeHTTP env r).trace =
        [{ Method := r.Method, URL := r.URL, Header := r.Header,
           Body := ReadCloser.NopCloser (some ⟨(env.inspected r).tx.RequestBodyBuffer.data, 0⟩) }] ∧
      ReadCloser.readAll
          (ReadCloser.NopCloser (some ⟨(env.inspected r).tx.RequestBodyBuffer.data, 0⟩)) =
        (env.inspected r).tx.RequestBodyBuffer.data := by
  constructor
  · simp only [ServeHTTP, nextRequests_append_logging]
    rw [body_calls_next_once env r herr hit hopen]
    rfl
  · simp [ReadCloser.readAll, Reader.readAll]

theorem ServeHTTP_forwards_buffered_body_witness :
    (envAllow.inspected sampleRequest).err = GoError.nil ∧
      (envAllow.inspected sampleRequest).it = none ∧
      (envAllow.inspected sampleRequest).tx.RequestBodyBuffer.openErr = GoError.nil ∧
      (nextRequests (ServeHTTP envAllow sampleRequest).trace =
          [{ Method := sampleRequest.Method, URL := sampleRequest.URL,
             Header := sampleRequest.Header,
             Body := ReadCloser.NopCloser
               (some ⟨(envAllow.inspected sampleRequest).tx.RequestBodyBuffer.data, 0⟩) }] ∧
        ReadCloser.readAll
            (ReadCloser.NopCloser
              (some ⟨(envAllow.inspected sampleRequest).tx.RequestBodyBuffer.data, 0⟩)) =
          (envAllow.inspected sampleRequest).tx.RequestBodyBuffer.data) :=
  ⟨rfl, rfl, rfl, ServeHTTP_forwards_buffered_body envAllow sampleRequest rfl rfl rfl⟩

/-- C5, as stated, fails: the engine fails with an ordinary error during
request inspection, and what `ServeHTTP` returns is that error itself, not a
handler error with status code 500 and the transaction ID. -/
theorem ServeHTTP_engine_error_not_wrapped :
    (envEngineFails.inspected sampleRequest).err ≠ GoError.nil ∧
      (ServeHTTP envEngineFails sampleRequest).result = GoError.errorString "engine failure" ∧
      ¬ ∃ id cause,
        (ServeHTTP envEngineFails sampleRequest).result = GoError.HandlerError 500 id cause := by
  have hres : (ServeHTTP envEngineFails sampleRequest).result =
      GoError.errorString "engine failure" := by decide
  refine ⟨by decide, hres, ?_⟩
  rintro ⟨id, cause, h⟩
  rw [hres] at h
  cases h

/-- C5, amended: when `ProcessRequest` returns an error, the next handler is
never called and `ServeHTTP` returns exactly that error, unchanged. -/
theorem ServeHTTP_engine_error (env : Env) (r : Request)
    (herr : (env.inspected r).err ≠ GoError.nil) :
    nextRequests (ServeHTTP env r).trace = [] ∧
      (ServeHTTP env r).result = (env.inspected r).err := by
  have hb := body_of_engine_error env r herr
  constructor
  · simp [ServeHTTP, hb, requestSteps, nextRequests]
  · simp [ServeHTTP, hb]

theorem ServeHTTP_engine_error_witness :
    (envEngineFails.inspected sampleRequest).err ≠ GoError.nil ∧
      nextRequests (ServeHTTP envEngineFails sampleRequest).trace = [] ∧
      (ServeHTTP envEngineFails sampleRequest).result =
        (envEngineFails.inspected sampleRequest).err :=
  ⟨by decide, ServeHTTP_engine_error envEngineFails sampleRequest (by decide)⟩

/-- C6: in every run of `ServeHTTP`, whichever way it returns,
`tx.ProcessLogging()` is called exactly once, and it is the last call: every
other step on the transaction, the request and the real sink comes before. -/
theorem ServeHTTP_logs_once_at_the_end (env : Env) (r : Request) :
    (ServeHTTP env r).trace.count Step.ProcessLogging = 1 ∧
      ∃ steps, (ServeHTTP env r).trace = steps ++ [Step.ProcessLogging] ∧
        Step.ProcessLogging ∉ steps := by
  have hb := body_never_logs env r
  refine ⟨?_, (ServeHTTP.body env r).1.trace, rfl, hb⟩
  simp [ServeHTTP, List.count_append, List.count_eq_zero_of_not_mem hb]

/-- C8: when the next handler returns an error, `ServeHTTP` returns exactly
that error, whether or not the transaction's Interruption is set, and the only
call it makes after the handler's is the deferred `ProcessLogging`: it does not
read the Interruption, does not ask the recorder for `Buffered`, `Status` or
`Reader`, and makes no `WriteHeader` or body write on the real sink. -/
theorem ServeHTTP_handler_error (env : Env) (r : Request)
    (herr : (env.inspected r).err = GoError.nil) (hit : (env.inspected r).it = none)
    (hopen : (env.inspected r).tx.RequestBodyBuffer.openErr = GoError.nil)
    (hnext : (env.handled r).err ≠ GoError.nil) :
    (ServeHTTP env r).result = (env.handled r).err ∧
      (ServeHTTP env r).trace =
        [Step.NewTransaction, Step.ReplacerSet "http.transaction_id" env.NewTransaction.ID,
          Step.ProcessRequest, Step.RequestBodyReader, Step.SetBody, Step.NewStreamRecorder,
          Step.Next (env.forwarded r), Step.ProcessLogging] ∧
      (ServeHTTP env r).trace.filter Step.isResolution = [] := by
  have hb := body_of_handler_error env r herr hit hopen hnext
  refine ⟨?_, ?_, ?_⟩ <;>
    simp [ServeHTTP, hb, handoverSteps, requestSteps, Step.isResolution]

theorem ServeHTTP_handler_error_witness :
    (envHandlerFails.handled sampleRequest).err ≠ GoError.nil ∧
      (envHandlerFails.handled sampleRequest).tx.Interruption = some sampleDeny406 ∧
      ((ServeHTTP envHandlerFails sampleRequest).result =
          (envHandlerFails.handled sampleRequest).err ∧
        (ServeHTTP envHandlerFails sampleRequest).trace =
          [Step.NewTransaction,
            Step.ReplacerSet "http.transaction_id" envHandlerFails.NewTransaction.ID,
            Step.ProcessRequest, Step.RequestBodyReader, Step.SetBody, Step.NewStreamRecorder,
            Step.Next (envHandlerFails.forwarded sampleRequest), Step.ProcessLogging] ∧
        (ServeHTTP envHandlerFails sampleRequest).trace.filter Step.isResolution = []) :=
  ⟨by decide, rfl,
    ServeHTTP_handler_error envHandlerFails sampleRequest rfl rfl rfl (by decide)⟩

/-- C9, as stated, fails: the handler recorded status 200 and the capture
buffer cannot be opened; `ServeHTTP` returns the buffer's error itself, not a
handler error with status code 500, and by the time `rec.Reader()` fails it has
already called `WriteHeader(200)` on the real sink. -/
theorem ServeHTTP_capture_error_status_sent :
    (envBufferFails.handled sampleRequest).recorder.Buffered = true ∧
      (envBufferFails.handled sampleRequest).recorder.Reader.2 ≠ GoError.nil ∧
      (ServeHTTP envBufferFails sampleRequest).result =
        GoError.errorString "cannot open buffer" ∧
      (¬ ∃ id cause,
        (ServeHTTP envBufferFails sampleRequest).result = GoError.HandlerError 500 id cause) ∧
      sinkOps (ServeHTTP envBufferFails sampleRequest).trace = [Step.WriteHeader 200] ∧
      (ServeHTTP envBufferFails sampleRequest).trace =
        [Step.NewTransaction, Step.ReplacerSet "http.transaction_id" "tx-1",
          Step.ProcessRequest, Step.RequestBodyReader, Step.SetBody, Step.NewStreamRecorder,
          Step.Next (envBufferFails.forwarded sampleRequest), Step.ReadInterruption,
          Step.RecBuffered, Step.RecStatus, Step.WriteHeader 200, Step.RecReader,
          Step.ProcessLogging] := by
  have hres : (ServeHTTP envBufferFails sampleRequest).result =
      GoError.errorString "cannot open buffer" := by decide
  refine ⟨by decide, by decide, hres, ?_, by decide, by decide⟩
  rintro ⟨id, cause, h⟩
  rw [hres] at h
  cases h

/-- C9, amended: when final resolution is reached in buffered mode and
`rec.Reader()` fails, `ServeHTTP` returns the reader's error itself, unchanged,
and no buffered body byte is emitted to the real sink: it makes no copy. -/
theorem ServeHTTP_capture_error (env : Env) (r : Request)
    (herr : (env.inspected r).err = GoError.nil) (hit : (env.inspected r).it = none)
    (hopen : (env.inspected r).tx.RequestBodyBuffer.openErr = GoError.nil)
    (hnext : (env.handled r).err = GoError.nil)
    (hint : (env.handled r).tx.Interruption = none)
    (hbuf : (env.handled r).recorder.Buffered = true)
    (hrec : (env.handled r).recorder.Reader.2 ≠ GoError.nil) :
    (ServeHTTP env r).result = (env.handled r).recorder.Reader.2 ∧
      (ServeHTTP env r).trace.filter Step.isCopy = [] := by
  have hb := body_of_capture_error env r herr hit hopen hnext hint hbuf hrec
  constructor
  · simp [ServeHTTP, hb]
  · by_cases hs : (env.handled r).recorder.Status > 0 <;>
      simp [ServeHTTP, hb, hs, handoverSteps, requestSteps, releaseSteps, Step.isCopy,
        List.filter]

theorem ServeHTTP_capture_error_witness :
    (envBufferFails.handled sampleRequest).recorder.Buffered = true ∧
      (envBufferFails.handled sampleRequest).recorder.Reader.2 ≠ GoError.nil ∧
      ((ServeHTTP envBufferFails sampleRequest).result =
          (envBufferFails.handled sampleRequest).recorder.Reader.2 ∧
        (ServeHTTP envBufferFails sampleRequest).trace.filter Step.isCopy = []) :=
  ⟨rfl, by decide,
    ServeHTTP_capture_error envBufferFails sampleRequest rfl rfl rfl rfl rfl rfl (by decide)⟩

end Coraza
